import Mathlib

/-!
# Verification of the Barcode Scanner core (src/app.js)

A shallow embedding of the detection-confirmation engine, the scan
lifecycle controller, the history store, manual entry, the product
lookup back-fill, and the settings update of `class BarcodeScanner`
(src/app.js; src/unnamed/part_000 contains an older variant whose
`addToHistory` is identical).

Conventions:
* JS epoch-millisecond timestamps are `Nat`; comparisons that can go
  negative in JS (`Date.now() - detectionTimeout`) are done in `Int`.
* DOM rendering, camera, audio and network calls are external
  collaborators: their *inputs to the core* (decode results, lookup
  responses, checkbox states) are parameters, and the ECMAScript
  builtins `Date.prototype.toISOString` and `encodeURIComponent` are
  modelled as explicit functions.
-/

namespace BarcodeScanner

/-- One raw decode observation: `{code, format, timestamp}` pushed onto
`this.detectionHistory` (app.js:459-463). -/
structure Detection where
  code : String
  format : String
  timestamp : Nat
deriving Repr, DecidableEq

/-- The per-format enable flags (`settings.formats`, app.js:22-29). -/
structure Formats where
  UPC : Bool
  EAN : Bool
  Code128 : Bool
  Code39 : Bool
  QR : Bool
  DataMatrix : Bool
deriving Repr, DecidableEq

/-- `this.settings` (app.js:16-30). `detectionTimeout` is in ms. -/
structure Settings where
  audioFeedback : Bool
  autoSearch : Bool
  requireMultipleDetections : Bool
  minDetections : Nat
  detectionTimeout : Nat
  formats : Formats
deriving Repr, DecidableEq

/-- The constructor's default settings (app.js:16-30), used when
`loadSettings()` finds nothing. -/
def defaultSettings : Settings :=
  { audioFeedback := true
    autoSearch := true
    requireMultipleDetections := true
    minDetections := 2
    detectionTimeout := 2000
    formats :=
      { UPC := true, EAN := true, Code128 := true
        Code39 := true, QR := true, DataMatrix := true } }

/-- Outcome of one `observe` call of the confirmation engine: the
detection window left behind and whether the code was confirmed
(`confirmed = false` is the spec's Pending). -/
structure ObserveResult where
  window : List Detection
  confirmed : Bool
deriving Repr, DecidableEq

/-- The window/confirmation logic of `handleDetection(result)`
(app.js:448-479): push the new observation, prune entries with
`timestamp <= now - detectionTimeout`, count entries matching the
just-observed code, and confirm when `requireMultipleDetections` is
off or the count reaches `minDetections`.  The debug-display and the
`confirmDetection` side effects are modelled separately
(`handleDetectionState`). -/
def handleDetection (st : Settings) (window : List Detection)
    (code format : String) (now : Nat) : ObserveResult :=
  let window1 := window ++ [{ code := code, format := format, timestamp := now }]
  let cutoff : Int := (now : Int) - (st.detectionTimeout : Int)
  let pruned := window1.filter (fun d => cutoff < (d.timestamp : Int))
  let codeMatches := pruned.filter (fun d => d.code == code)
  if st.requireMultipleDetections then
    if st.minDetections ≤ codeMatches.length then
      { window := pruned, confirmed := true }
    else
      { window := pruned, confirmed := false }
  else
    { window := pruned, confirmed := true }

/-! ## Timestamps: model of `Date.prototype.toISOString` -/

/-- Two-digit zero-padded decimal rendering (field values are < 100). -/
def pad2 (n : Nat) : String :=
  String.mk [Nat.digitChar (n / 10 % 10), Nat.digitChar (n % 10)]

/-- Three-digit zero-padded decimal rendering (field values are < 1000). -/
def pad3 (n : Nat) : String :=
  String.mk [Nat.digitChar (n / 100 % 10), Nat.digitChar (n / 10 % 10),
             Nat.digitChar (n % 10)]

/-- Four-digit zero-padded decimal rendering (years 1970..9999). -/
def pad4 (n : Nat) : String :=
  String.mk [Nat.digitChar (n / 1000 % 10), Nat.digitChar (n / 100 % 10),
             Nat.digitChar (n / 10 % 10), Nat.digitChar (n % 10)]

/-- Proleptic-Gregorian date from a count of days since 1970-01-01
(the standard civil-from-days computation), giving (year, month, day). -/
def civilFromDays (z : Nat) : Nat × Nat × Nat :=
  let zShift := z + 719468
  let era := zShift / 146097
  let doe := zShift % 146097
  let yoe := (doe - doe / 1460 + doe / 36524 - doe / 146096) / 365
  let y := yoe + era * 400
  let doy := doe - (365 * yoe + yoe / 4 - yoe / 100)
  let mp := (5 * doy + 2) / 153
  let d := doy - (153 * mp + 2) / 5 + 1
  let m := if mp < 10 then mp + 3 else mp - 9
  (if m ≤ 2 then y + 1 else y, m, d)

/-- Model of the ECMAScript builtin `new Date(ms).toISOString()` for
epoch-millisecond times from 1970 up to year 9999:
`YYYY-MM-DDTHH:MM:SS.sssZ`. -/
def toISOString (ms : Nat) : String :=
  let s := ms / 1000
  let secOfDay := s % 86400
  let ymd := civilFromDays (s / 86400)
  pad4 ymd.1 ++ "-" ++ pad2 ymd.2.1 ++ "-" ++ pad2 ymd.2.2 ++ "T" ++
    pad2 (secOfDay / 3600) ++ ":" ++ pad2 (secOfDay % 3600 / 60) ++ ":" ++
    pad2 (secOfDay % 60) ++ "." ++ pad3 (ms % 1000) ++ "Z"

/-! ## History store -/

/-- A scan record `{code, format, timestamp, product}` (app.js:537-542):
`timestamp` is the ISO-8601 string, `product` starts `null` and may be
back-filled later. -/
structure ScanRecord where
  code : String
  format : String
  timestamp : String
  product : Option String
deriving Repr, DecidableEq

/-- `addToHistory(scanData)` (app.js:813-819, identical at
src/unnamed/part_000:661-667): `unshift` the new record, then truncate
to the first 50 when the length exceeds 50.  `saveHistory()` is the
external persistence adapter. -/
def addToHistory (history : List ScanRecord) (scanData : ScanRecord) :
    List ScanRecord :=
  let h := scanData :: history
  if 50 < h.length then h.take 50 else h

/-! ## Scanner session state and lifecycle -/

/-- The fields of `class BarcodeScanner` the core logic reads and
writes (app.js:2-12, 32).  Camera stream, DOM and audio handles are
external and omitted. -/
structure ScannerState where
  isScanning : Bool
  detectionHistory : List Detection
  lastDetectedCode : Option String
  detectionCount : Nat
  scanStartTime : Nat
  frameCount : Nat
  settings : Settings
  scanHistory : List ScanRecord
deriving Repr, DecidableEq

/-- The constructor's initial state (app.js:2-12) with default settings
and empty persisted history. -/
def initialState : ScannerState :=
  { isScanning := false
    detectionHistory := []
    lastDetectedCode := none
    detectionCount := 0
    scanStartTime := 0
    frameCount := 0
    settings := defaultSettings
    scanHistory := [] }

/-- State effect of `startScanning()` (app.js:367-375): no-op when
already scanning, otherwise set the running flag and reset the
detection window, counters and start time.  The UI toggle and the
video-stream check are external. -/
def startScanning (s : ScannerState) (now : Nat) : ScannerState :=
  if s.isScanning then s
  else
    { s with
      isScanning := true
      detectionHistory := []
      detectionCount := 0
      scanStartTime := now
      frameCount := 0 }

/-- State effect of `stopScanning()` (app.js:500-519): no-op when not
scanning, otherwise clear the running flag.  Debug-interval teardown,
button toggling and canvas clearing are external. -/
def stopScanning (s : ScannerState) : ScannerState :=
  if !s.isScanning then s else { s with isScanning := false }

/-- State effect of `processScan(code, format)` (app.js:536-552):
build the scan record with a `null` product and the current ISO
timestamp, and prepend it to history.  `showResults` is display-only,
and the `searchProduct` lookup is asynchronous and external; its later
history effect is `displayProductInfoUpdate` below. -/
def processScan (s : ScannerState) (code format : String) (now : Nat) :
    ScannerState :=
  { s with
    scanHistory :=
      addToHistory s.scanHistory
        { code := code, format := format
          timestamp := toISOString now, product := none } }

/-- State effect of `confirmDetection(code, format)` (app.js:481-488):
beep and visual feedback (external), then `stopScanning()` and
`processScan(code, format)`.  Note it does NOT touch
`detectionHistory`. -/
def confirmDetection (s : ScannerState) (code format : String) (now : Nat) :
    ScannerState :=
  processScan (stopScanning s) code format now

/-- Full state effect of `handleDetection(result)` (app.js:448-479):
record the last detected code, run the window logic, and on a confirm
run `confirmDetection`. -/
def handleDetectionState (s : ScannerState) (code format : String)
    (now : Nat) : ScannerState :=
  let r := handleDetection s.settings s.detectionHistory code format now
  let s1 := { s with detectionHistory := r.window, lastDetectedCode := some code }
  if r.confirmed then confirmDetection s1 code format now else s1

/-- Observable outcome of one `scanLoop()` iteration (app.js:403-446):
the resulting state, whether a decode was attempted on the frame, and
whether the next iteration was scheduled via `requestAnimationFrame`. -/
structure LoopStepResult where
  state : ScannerState
  decodeAttempted : Bool
  rescheduled : Bool
deriving Repr, DecidableEq

/-- One iteration of `scanLoop()` (app.js:403-446).  `decode` is the
external decoder's result on this frame (`some (code, format)` or no
code found).  The iteration returns immediately when `isScanning` is
false (app.js:404); on a successful decode it handles the detection and
returns without rescheduling (app.js:425-428); otherwise it counts the
frame and reschedules only if `isScanning` still holds
(app.js:434-439). -/
def scanLoop (s : ScannerState) (decode : Option (String × String))
    (now : Nat) : LoopStepResult :=
  if !s.isScanning then { state := s, decodeAttempted := false, rescheduled := false }
  else
    match decode with
    | some (code, format) =>
        { state := handleDetectionState s code format now
          decodeAttempted := true
          rescheduled := false }
    | none =>
        let s1 := { s with frameCount := s.frameCount + 1 }
        { state := s1, decodeAttempted := true, rescheduled := s1.isScanning }

/-- Run a sequence of scan-loop iterations, one per available frame
(each frame carries the decoder's result and the current time). -/
def runFrames (s : ScannerState)
    (frames : List (Option (String × String) × Nat)) : ScannerState :=
  frames.foldl (fun st p => (scanLoop st p.1 p.2).state) s

/-! ## Manual entry -/

/-- Model of the ECMAScript builtin `String.prototype.trim`: strip
leading and trailing whitespace. -/
def jsTrim (s : String) : String :=
  String.mk
    (((s.data.dropWhile Char.isWhitespace).reverse.dropWhile
        Char.isWhitespace).reverse)

/-- Outcome of `submitManualCode()`: the blank-code rejection
(`alert` + refocus, app.js:1029-1033) or a successful submission. -/
inductive ManualResult where
  | emptyCodeError : ManualResult
  | submitted : String → String → ManualResult
deriving Repr, DecidableEq

/-- State effect of `submitManualCode()` (app.js:1017-1043): trim the
entered code; reject a blank code without touching any state;
otherwise process the scan exactly like a confirmed detection,
bypassing the confirmation engine.  The modal/DOM manipulation is
external. -/
def submitManualCode (s : ScannerState) (rawCode format : String)
    (now : Nat) : ScannerState × ManualResult :=
  let code := jsTrim rawCode
  if code = "" then (s, ManualResult.emptyCodeError)
  else (processScan s code format now, ManualResult.submitted code format)

/-! ## Product lookup, fallback result and back-fill -/

/-- Upper-case hexadecimal digit, as produced by `encodeURIComponent`. -/
def hexDigitChar (n : Nat) : Char :=
  if n < 10 then Char.ofNat (48 + n) else Char.ofNat (55 + n)

/-- `%XX` escape of one UTF-8 byte. -/
def percentEncodeByte (b : UInt8) : String :=
  String.mk [Char.ofNat 37, hexDigitChar (b.toNat / 16), hexDigitChar (b.toNat % 16)]

/-- The characters `encodeURIComponent` leaves unescaped:
alphanumerics and `-_.!~*'()` (39 is the apostrophe). -/
def isURIUnreserved (c : Char) : Bool :=
  c.isAlphanum || c = Char.ofNat 45 || c = Char.ofNat 95 || c = Char.ofNat 46 ||
    c = Char.ofNat 33 || c = Char.ofNat 126 || c = Char.ofNat 42 ||
    c = Char.ofNat 39 || c = Char.ofNat 40 || c = Char.ofNat 41

/-- Model of the ECMAScript builtin `encodeURIComponent`: unreserved
characters pass through, every other character is replaced by the
percent-escapes of its UTF-8 bytes. -/
def encodeURIComponent (s : String) : String :=
  s.data.foldl
    (fun acc c =>
      if isURIUnreserved c then acc.push c
      else acc ++ String.join (((String.singleton c).toUTF8.toList).map percentEncodeByte))
    ""

/-- A named search link of the fallback card (app.js:618-631). -/
structure SearchLink where
  name : String
  url : String
deriving Repr, DecidableEq

/-- Product metadata, the union of the fields built by
`searchOpenFoodFacts` (app.js:592-603) and `createFallbackResult`
(app.js:611-633).  `searchLinks` is `none` for Open Food Facts results
(the JS object has no such property). -/
structure ProductInfo where
  name : String
  brand : String
  description : String
  image : Option String
  source : String
  sourceUrl : String
  searchLinks : Option (List SearchLink)
  categories : String
  nutritionGrades : Option String
  labels : String
deriving Repr, DecidableEq

/-- `createFallbackResult(code)` (app.js:611-633). -/
def createFallbackResult (code : String) : ProductInfo :=
  { name := "Product Code: " ++ code
    brand := "Unknown"
    description := "Product information not found in our database. Use the search links below to find more details."
    image := none
    source := "Search Links"
    sourceUrl := "https://www.google.com/search?q=" ++ encodeURIComponent code ++ "+barcode+product"
    searchLinks := some
      [{ name := "Google Search"
         url := "https://www.google.com/search?q=" ++ encodeURIComponent code ++ "+barcode+product" },
       { name := "Amazon Search"
         url := "https://www.amazon.com/s?k=" ++ encodeURIComponent code },
       { name := "UPC Database"
         url := "https://www.upcitemdb.com/upc/" ++ encodeURIComponent code }]
    categories := ""
    nutritionGrades := none
    labels := "" }

/-- `isValidUPCorEAN(code)` (app.js:577-579): the regex
`/^\d{8,14}$/`. -/
def isValidUPCorEAN (code : String) : Bool :=
  8 ≤ code.length && code.length ≤ 14 && code.data.all Char.isDigit

/-- The product-selection logic of `searchProduct(code, format)`
(app.js:554-575): query Open Food Facts only for numeric codes
(`lookup` is the external response, `none` = NotFound), and fall back
to `createFallbackResult` when no product was found. -/
def searchProduct (lookup : Option ProductInfo) (code : String) : ProductInfo :=
  let productData := if isValidUPCorEAN code then lookup else none
  match productData with
  | some p => p
  | none => createFallbackResult code

/-- The links rendered on the product card by `displayProductInfo`
(app.js:681-687): each entry of `searchLinks` when the property exists
(a JS array is truthy even when empty), otherwise a single Google
search link on the product name. -/
def displayedLinks (p : ProductInfo) : List SearchLink :=
  match p.searchLinks with
  | some links => links
  | none =>
      [{ name := "Search Google"
         url := "https://www.google.com/search?q=" ++ encodeURIComponent p.name }]

/-- The history effect of `displayProductInfo(productData, code)`
(app.js:693-697): when history is non-empty, overwrite the head
record's `product` with `productData.name` and persist.  The `_code`
argument mirrors the JS parameter: it is NOT consulted by this
update. -/
def displayProductInfoUpdate (history : List ScanRecord)
    (productData : ProductInfo) (_code : String) : List ScanRecord :=
  match history with
  | [] => []
  | head :: tail => { head with product := some productData.name } :: tail

/-- The composed effect on history of a completed `searchProduct` call
(app.js:554-575 ending in `displayProductInfo(productData, code)`). -/
def searchAndDisplay (history : List ScanRecord) (lookup : Option ProductInfo)
    (code : String) : List ScanRecord :=
  displayProductInfoUpdate history (searchProduct lookup code) code

/-! ## Settings update -/

/-- The checkbox states `updateSettings()` reads from the DOM
(app.js:976-986); `none` models a missing element
(`document.getElementById` returning `null`, read through `?.checked
?? true`). -/
structure SettingsUI where
  audioFeedback : Option Bool
  autoSearch : Option Bool
  requireMultipleDetections : Option Bool
  formatUPC : Option Bool
  formatEAN : Option Bool
  formatCode128 : Option Bool
  formatCode39 : Option Bool
  formatQR : Option Bool
  formatDataMatrix : Option Bool
deriving Repr, DecidableEq

/-- `updateSettings()` (app.js:975-1006): rebuild `this.settings` from
the checkboxes, hard-coding `minDetections: 2` and
`detectionTimeout: 2000`.  `saveSettings()` is the external
persistence adapter. -/
def updateSettings (ui : SettingsUI) : Settings :=
  { audioFeedback := ui.audioFeedback.getD true
    autoSearch := ui.autoSearch.getD true
    requireMultipleDetections := ui.requireMultipleDetections.getD true
    minDetections := 2
    detectionTimeout := 2000
    formats :=
      { UPC := ui.formatUPC.getD true
        EAN := ui.formatEAN.getD true
        Code128 := ui.formatCode128.getD true
        Code39 := ui.formatCode39.getD true
        QR := ui.formatQR.getD true
        DataMatrix := ui.formatDataMatrix.getD true } }

/-! ## Helper lemmas -/

/-- The window left by `handleDetection` is the pushed-then-pruned
window, in every branch. -/
theorem handleDetection_window (st : Settings) (w : List Detection)
    (c f : String) (n : Nat) :
    (handleDetection st w c f n).window =
      (w ++ [(⟨c, f, n⟩ : Detection)]).filter
        (fun d => (n : Int) - (st.detectionTimeout : Int) < (d.timestamp : Int)) := by
  unfold handleDetection
  dsimp only
  split
  · split <;> rfl
  · rfl

/-- The confirmation flag of `handleDetection`, as a Boolean formula. -/
theorem handleDetection_confirmed (st : Settings) (w : List Detection)
    (c f : String) (n : Nat) :
    (handleDetection st w c f n).confirmed =
      (!st.requireMultipleDetections ||
        decide (st.minDetections ≤
          (((w ++ [(⟨c, f, n⟩ : Detection)]).filter
              (fun d => (n : Int) - (st.detectionTimeout : Int) < (d.timestamp : Int))).filter
            (fun d => d.code == c)).length)) := by
  unfold handleDetection
  dsimp only
  cases hr : st.requireMultipleDetections
  · simp
  · rw [if_pos rfl]
    simp only [Bool.not_true, Bool.false_or]
    split
    · next h => exact (decide_eq_true h).symm
    · next h => exact (decide_eq_false h).symm

/-- `addToHistory` in closed form: the new record followed by at most
49 retained old records. -/
theorem addToHistory_eq (history : List ScanRecord) (r : ScanRecord) :
    addToHistory history r = r :: history.take (min history.length 49) := by
  unfold addToHistory
  dsimp only
  split
  · next h =>
      simp only [List.length_cons] at h
      rw [List.take_cons (by omega), min_eq_right (by omega)]
  · next h =>
      simp only [List.length_cons] at h
      rw [min_eq_left (by omega), List.take_length]

/-- The confirmation condition of `handleDetection`, as an iff over the
pruned window it returns. -/
theorem handleDetection_confirmed_iff (st : Settings) (w : List Detection)
    (c f : String) (n : Nat) :
    (handleDetection st w c f n).confirmed = true ↔
      (st.requireMultipleDetections = false ∨
        st.minDetections ≤
          ((handleDetection st w c f n).window.filter (fun d => d.code == c)).length) := by
  rw [handleDetection_confirmed, handleDetection_window]
  cases st.requireMultipleDetections <;> simp

/-- With multiple detections required and a threshold of at least two,
one observation into an empty window stays pending. -/
theorem single_obs_pending (st : Settings) (c f : String) (n : Nat)
    (h1 : st.requireMultipleDetections = true) (h2 : 2 ≤ st.minDetections) :
    (handleDetection st [] c f n).confirmed = false := by
  cases hc : (handleDetection st [] c f n).confirmed
  · rfl
  · exfalso
    rcases (handleDetection_confirmed_iff st [] c f n).mp hc with h | h
    · rw [h1] at h; cases h
    · have h3 := List.length_filter_le (fun d => d.code == c)
        (handleDetection st [] c f n).window
      have h4 : (handleDetection st [] c f n).window.length ≤ 1 := by
        rw [handleDetection_window]
        exact le_trans (List.length_filter_le _ _) (by simp)
      omega

/-- C1: `handleDetection` confirms exactly when `requireMultipleDetections`
is false or the pruned window holds at least `minDetections` entries for
the observed code; from an empty window with the threshold at 2 a single
observation never confirms, two observations of the same code within
`detectionTimeout` confirm exactly once (pending then confirmed), and
with `requireMultipleDetections` off every observation confirms
immediately. -/
theorem C1_confirmation_rule :
    (∀ (st : Settings) (w : List Detection) (c f : String) (n : Nat),
      (handleDetection st w c f n).confirmed = true ↔
        (st.requireMultipleDetections = false ∨
          st.minDetections ≤
            ((handleDetection st w c f n).window.filter (fun d => d.code == c)).length))
  ∧ (∀ (st : Settings) (c f : String) (n : Nat),
      st.requireMultipleDetections = true → st.minDetections = 2 →
        (handleDetection st [] c f n).confirmed = false)
  ∧ (∀ (st : Settings) (c f : String) (n₁ n₂ : Nat),
      st.requireMultipleDetections = true → st.minDetections = 2 →
      0 < st.detectionTimeout → n₁ ≤ n₂ → n₂ - n₁ < st.detectionTimeout →
        (handleDetection st [] c f n₁).confirmed = false ∧
        (handleDetection st (handleDetection st [] c f n₁).window c f n₂).confirmed = true)
  ∧ (∀ (st : Settings) (w : List Detection) (c f : String) (n : Nat),
      st.requireMultipleDetections = false →
        (handleDetection st w c f n).confirmed = true) := by
  refine ⟨fun st w c f n => handleDetection_confirmed_iff st w c f n,
    fun st c f n h1 h2 => single_obs_pending st c f n h1 (by omega), ?_, ?_⟩
  · intro st c f n₁ n₂ h1 h2 hT h12 hlt
    have hw1 : (handleDetection st [] c f n₁).window = [⟨c, f, n₁⟩] := by
      rw [handleDetection_window]
      have hp : (n₁ : Int) - (st.detectionTimeout : Int) < (n₁ : Nat) := by omega
      simp [hp]
    refine ⟨single_obs_pending st c f n₁ h1 (by omega), ?_⟩
    apply (handleDetection_confirmed_iff st _ c f n₂).mpr
    right
    rw [hw1]
    have hw2 : (handleDetection st [⟨c, f, n₁⟩] c f n₂).window =
        [⟨c, f, n₁⟩, ⟨c, f, n₂⟩] := by
      rw [handleDetection_window]
      have e1 : (n₂ : Int) - (st.detectionTimeout : Int) < (n₁ : Nat) := by omega
      have e2 : (n₂ : Int) - (st.detectionTimeout : Int) < (n₂ : Nat) := by omega
      simp [e1, e2]
    rw [hw2, h2]
    simp
  · intro st w c f n h
    rw [handleDetection_confirmed, h]
    simp

/-- C1 instantiated: with the default settings (threshold 2) a lone
observation of "X" stays pending, a second one 100 ms later confirms,
and with multiple detections not required a first observation of a QR
code confirms at once. -/
theorem C1_confirmation_rule_witness :
    ((handleDetection defaultSettings [] "X" "EAN-13" 7).confirmed = false) ∧
    ((handleDetection defaultSettings [] "X" "EAN-13" 0).confirmed = false ∧
      (handleDetection defaultSettings
        (handleDetection defaultSettings [] "X" "EAN-13" 0).window
        "X" "EAN-13" 100).confirmed = true) ∧
    ((handleDetection { defaultSettings with requireMultipleDetections := false }
        [] "QR123" "QR Code" 42).confirmed = true) :=
  ⟨C1_confirmation_rule.2.1 defaultSettings "X" "EAN-13" 7 rfl rfl,
   C1_confirmation_rule.2.2.1 defaultSettings "X" "EAN-13" 0 100 rfl rfl
     (by decide) (by decide) (by decide),
   C1_confirmation_rule.2.2.2
     { defaultSettings with requireMultipleDetections := false }
     [] "QR123" "QR Code" 42 rfl⟩

/-- C2 refuted as stated: with the default settings, the second
observation of "X" confirms, yet the window `handleDetection` leaves
behind still holds both observations — the confirm does not clear it
(`confirmDetection`, app.js:481-488, never touches
`detectionHistory`). -/
theorem C2_counterexample :
    (handleDetection defaultSettings
        (handleDetection defaultSettings [] "X" "EAN-13" 0).window
        "X" "EAN-13" 100).confirmed = true ∧
      (handleDetection defaultSettings
          (handleDetection defaultSettings [] "X" "EAN-13" 0).window
          "X" "EAN-13" 100).window =
        [⟨"X", "EAN-13", 0⟩, ⟨"X", "EAN-13", 100⟩] := by decide

/-- C2 amended: `confirmDetection` leaves the detection window
untouched but stops scanning, and the window is reset to empty by the
next `startScanning` (app.js:372); since detections only occur while
scanning, a second independent detection still rebuilds its count from
zero. -/
theorem C2_window_cleared_on_start :
    (∀ (s : ScannerState) (c f : String) (n : Nat),
        (confirmDetection s c f n).detectionHistory = s.detectionHistory ∧
        (confirmDetection s c f n).isScanning = false)
  ∧ (∀ (s : ScannerState) (n : Nat), s.isScanning = false →
        (startScanning s n).detectionHistory = []) := by
  constructor
  · intro s c f n
    cases h : s.isScanning <;>
      simp [confirmDetection, processScan, stopScanning, h]
  · intro s n h
    simp [startScanning, h]

/-- C2 amended, instantiated at the initial state. -/
theorem C2_window_cleared_on_start_witness :
    (startScanning initialState 0).detectionHistory = [] :=
  C2_window_cleared_on_start.2 initialState 0 rfl

/-- C3: every entry retained by the pruning step of `handleDetection`
is strictly younger than `detectionTimeout`: `now - observedAt <
detectionTimeout`, equivalently `observedAt > now - detectionTimeout`;
the count is taken over this pruned window only. -/
theorem C3_pruned_window_recency :
    ∀ (st : Settings) (w : List Detection) (c f : String) (n : Nat)
      (d : Detection), d ∈ (handleDetection st w c f n).window →
        (n : Int) - (d.timestamp : Int) < (st.detectionTimeout : Int) ∧
        (n : Int) - (st.detectionTimeout : Int) < (d.timestamp : Int) := by
  intro st w c f n d hd
  rw [handleDetection_window, List.mem_filter] at hd
  have h2 := hd.2
  simp only [decide_eq_true_eq] at h2
  omega

/-- C3 instantiated: the just-pushed observation survives pruning and
is within the default 2000 ms timeout. -/
theorem C3_pruned_window_recency_witness :
    (0 : Int) - ((⟨"X", "EAN-13", 0⟩ : Detection).timestamp : Int) <
        (defaultSettings.detectionTimeout : Int) ∧
      (0 : Int) - (defaultSettings.detectionTimeout : Int) <
        ((⟨"X", "EAN-13", 0⟩ : Detection).timestamp : Int) :=
  C3_pruned_window_recency defaultSettings [] "X" "EAN-13" 0
    ⟨"X", "EAN-13", 0⟩ (by decide)

/-- C4: `addToHistory` equals "new record, then at most 49 retained old
records"; under any sequence of appends a history bounded by 50 stays
bounded by 50; the new record is always the head; and appending to a
full history of 50 drops exactly the oldest (last) record. -/
theorem C4_history_capacity :
    (∀ (h : List ScanRecord) (r : ScanRecord),
        addToHistory h r = r :: h.take (min h.length 49))
  ∧ (∀ (rs : List ScanRecord) (h : List ScanRecord), h.length ≤ 50 →
        (rs.foldl addToHistory h).length ≤ 50)
  ∧ (∀ (h : List ScanRecord) (r : ScanRecord), (addToHistory h r).head? = some r)
  ∧ (∀ (h : List ScanRecord) (r : ScanRecord), h.length = 50 →
        addToHistory h r = r :: h.dropLast) := by
  refine ⟨addToHistory_eq, ?_, ?_, ?_⟩
  · intro rs
    induction rs with
    | nil => intro h hle; simpa using hle
    | cons r rs ih =>
        intro h hle
        simp only [List.foldl_cons]
        apply ih
        rw [addToHistory_eq]
        simp only [List.length_cons, List.length_take]
        omega
  · intro h r
    rw [addToHistory_eq]
    rfl
  · intro h r hlen
    rw [addToHistory_eq, hlen, (by norm_num : min 50 49 = 49)]
    congr 1
    rw [List.dropLast_eq_take, hlen]

/-- C4 instantiated: folding 50 appends into an empty history stays
within the bound, and a 51st insert onto a full 50-entry history keeps
the new head and drops the last record. -/
theorem C4_history_capacity_witness :
    ((List.replicate 50 (⟨"a", "EAN-8", "t", none⟩ : ScanRecord)).foldl
        addToHistory []).length ≤ 50 ∧
      addToHistory (List.replicate 50 (⟨"a", "EAN-8", "t", none⟩ : ScanRecord))
          ⟨"new", "UPC-A", "t2", none⟩ =
        ⟨"new", "UPC-A", "t2", none⟩ ::
          (List.replicate 50 (⟨"a", "EAN-8", "t", none⟩ : ScanRecord)).dropLast :=
  ⟨C4_history_capacity.2.1 (List.replicate 50 ⟨"a", "EAN-8", "t", none⟩) []
      (by simp),
   C4_history_capacity.2.2.2 (List.replicate 50 ⟨"a", "EAN-8", "t", none⟩)
      ⟨"new", "UPC-A", "t2", none⟩ (by simp)⟩

/-- `stopScanning` always leaves the running flag cleared. -/
theorem stopScanning_isScanning (s : ScannerState) :
    (stopScanning s).isScanning = false := by
  cases h : s.isScanning <;> simp [stopScanning, h]

/-- The scan loop returns immediately when the running flag is down:
no decode, no reschedule, state untouched. -/
theorem scanLoop_not_scanning (s : ScannerState)
    (d : Option (String × String)) (n : Nat) (h : s.isScanning = false) :
    scanLoop s d n = ⟨s, false, false⟩ := by
  simp [scanLoop, h]

/-- C5: after `stopScanning`, a scan-loop iteration attempts no decode,
does not reschedule, and leaves the state unchanged (and so, by
iteration, no later frame is decoded either); `stopScanning` from a
non-scanning state is the identity; and an iteration reschedules only
when the running flag is still up. -/
theorem C5_stop_scanning_halts_loop :
    (∀ (s : ScannerState) (d : Option (String × String)) (n : Nat),
        s.isScanning = false → scanLoop s d n = ⟨s, false, false⟩)
  ∧ (∀ (s : ScannerState) (d : Option (String × String)) (n : Nat),
        (scanLoop (stopScanning s) d n).decodeAttempted = false ∧
        (scanLoop (stopScanning s) d n).rescheduled = false ∧
        (scanLoop (stopScanning s) d n).state = stopScanning s)
  ∧ (∀ (s : ScannerState), s.isScanning = false → stopScanning s = s)
  ∧ (∀ (s : ScannerState) (frames : List (Option (String × String) × Nat)),
        s.isScanning = false → runFrames s frames = s)
  ∧ (∀ (s : ScannerState) (d : Option (String × String)) (n : Nat),
        (scanLoop s d n).rescheduled = true →
          (scanLoop s d n).state.isScanning = true) := by
  refine ⟨scanLoop_not_scanning, ?_, ?_, ?_, ?_⟩
  · intro s d n
    rw [scanLoop_not_scanning (stopScanning s) d n (stopScanning_isScanning s)]
    exact ⟨rfl, rfl, rfl⟩
  · intro s h
    simp [stopScanning, h]
  · intro s frames h
    induction frames with
    | nil => rfl
    | cons p ps ih =>
        unfold runFrames at *
        simp only [List.foldl_cons]
        rw [scanLoop_not_scanning s p.1 p.2 h]
        exact ih
  · intro s d n
    cases hs : s.isScanning
    · rw [scanLoop_not_scanning s d n hs]
      simp
    · cases d with
      | some p =>
          obtain ⟨c0, f0⟩ := p
          simp [scanLoop, hs]
      | none => simp [scanLoop, hs]

/-- C5 instantiated at concrete states: an idle state ignores a frame,
`stopScanning` is a no-op when idle, a stopped state absorbs a whole
frame sequence, and a running state that reschedules is indeed still
running. -/
theorem C5_stop_scanning_halts_loop_witness :
    scanLoop initialState none 0 = ⟨initialState, false, false⟩ ∧
      stopScanning initialState = initialState ∧
      runFrames initialState [(none, 0), (some ("X", "EAN-13"), 1)] = initialState ∧
      (scanLoop (startScanning initialState 0) none 5).state.isScanning = true :=
  ⟨C5_stop_scanning_halts_loop.1 initialState none 0 rfl,
   C5_stop_scanning_halts_loop.2.2.1 initialState rfl,
   C5_stop_scanning_halts_loop.2.2.2.1 initialState
     [(none, 0), (some ("X", "EAN-13"), 1)] rfl,
   C5_stop_scanning_halts_loop.2.2.2.2 (startScanning initialState 0) none 5
     (by decide)⟩

/-- C6 refuted as stated: a lookup issued for code "A" whose response
arrives while the History head is a record for code "B" still
overwrites that head's `product` — `displayProductInfoUpdate` never
compares the head's code with the lookup's code (app.js:693-697 checks
only `scanHistory.length > 0`). -/
theorem C6_counterexample :
    displayProductInfoUpdate
        [⟨"B", "Code-128", "2024-01-01T00:00:00.000Z", none⟩]
        (createFallbackResult "A") "A" =
      [⟨"B", "Code-128", "2024-01-01T00:00:00.000Z", some "Product Code: A"⟩] ∧
    ("B" : String) ≠ "A" := by decide

/-- C6 amended: the back-fill mutates only the head record of History
(and only its `product` field), leaving all other records unchanged —
but it does so whenever History is non-empty, with no check that the
head still matches the code the lookup was issued for. -/
theorem C6_backfill_head_only :
    ∀ (hist : List ScanRecord) (p : ProductInfo) (code : String),
      (hist = [] → displayProductInfoUpdate hist p code = []) ∧
      (∀ (h0 : ScanRecord) (t : List ScanRecord), hist = h0 :: t →
        displayProductInfoUpdate hist p code =
          { h0 with product := some p.name } :: t) := by
  intro hist p code
  refine ⟨fun h => by subst h; rfl, fun h0 t h => by subst h; rfl⟩

/-- C6 amended, instantiated: back-filling a singleton history rewrites
exactly the head's `product` field. -/
theorem C6_backfill_head_only_witness :
    displayProductInfoUpdate [⟨"B", "Code-128", "ts", none⟩]
        (createFallbackResult "A") "A" =
      [{ (⟨"B", "Code-128", "ts", none⟩ : ScanRecord) with
          product := some (createFallbackResult "A").name }] :=
  (C6_backfill_head_only [⟨"B", "Code-128", "ts", none⟩]
      (createFallbackResult "A") "A").2
    ⟨"B", "Code-128", "ts", none⟩ [] rfl

/-- C7 refuted as stated: when the lookup for "5901234123457" returns
NotFound, the fallback card is shown but the History head's `product`
does NOT remain null — `displayProductInfo` writes the fallback name
"Product Code: 5901234123457" into it (app.js:693-697). -/
theorem C7_counterexample :
    searchAndDisplay
        [⟨"5901234123457", "EAN-13", "2024-01-01T00:00:00.000Z", none⟩]
        none "5901234123457" =
      [⟨"5901234123457", "EAN-13", "2024-01-01T00:00:00.000Z",
        some "Product Code: 5901234123457"⟩] := by decide

/-- C7 amended: a NotFound lookup yields the fallback product, whose
card shows the three fallback search links, and the History head's
`product` is set to the fallback name `"Product Code: <code>"` rather
than staying null; the rest of History is unchanged. -/
theorem C7_notfound_fallback :
    ∀ (code : String) (rec : ScanRecord) (tail : List ScanRecord),
      searchProduct none code = createFallbackResult code ∧
      (displayedLinks (createFallbackResult code)).length = 3 ∧
      searchAndDisplay (rec :: tail) none code =
        { rec with product := some ("Product Code: " ++ code) } :: tail := by
  intro code rec tail
  have hsp : searchProduct none code = createFallbackResult code := by
    unfold searchProduct
    cases h : isValidUPCorEAN code <;> simp [h]
  refine ⟨hsp, rfl, ?_⟩
  unfold searchAndDisplay
  rw [hsp]
  rfl

/-- C8: a manual code that is blank after trimming is rejected with the
empty-code error and leaves the whole scanner state — History included —
unchanged; no record is created and nothing is confirmed. -/
theorem C8_blank_manual_code_rejected :
    ∀ (s : ScannerState) (raw fmt : String) (now : Nat),
      jsTrim raw = "" →
        submitManualCode s raw fmt now = (s, ManualResult.emptyCodeError) := by
  intro s raw fmt now h
  unfold submitManualCode
  dsimp only
  rw [h]
  simp

/-- C8 instantiated: whitespace-only input is rejected and the state is
untouched. -/
theorem C8_blank_manual_code_rejected_witness :
    submitManualCode initialState "   " "UPC-A" 0 =
      (initialState, ManualResult.emptyCodeError) :=
  C8_blank_manual_code_rejected initialState "   " "UPC-A" 0 (by decide)

/-- Fixed-width rendering facts for the timestamp pads. -/
theorem pad2_length (n : Nat) : (pad2 n).length = 2 := rfl

/-- Three-character width of `pad3`. -/
theorem pad3_length (n : Nat) : (pad3 n).length = 3 := rfl

/-- Four-character width of `pad4`. -/
theorem pad4_length (n : Nat) : (pad4 n).length = 4 := rfl

/-- The modelled `toISOString` always renders the 24-character
`YYYY-MM-DDTHH:MM:SS.sssZ` shape. -/
theorem toISOString_length (ms : Nat) : (toISOString ms).length = 24 := by
  simp only [toISOString, String.length_append, pad2_length, pad3_length,
    pad4_length]
  rfl

/-- C9: submitting a non-blank manual code reports success and prepends
exactly one new record at the head of History carrying that code and
format, the current ISO-8601 timestamp (a non-empty, 24-character
string), and a null product. -/
theorem C9_manual_submit_creates_head_record :
    ∀ (s : ScannerState) (code fmt : String) (now : Nat),
      jsTrim code = code → code ≠ "" →
        (submitManualCode s code fmt now).2 = ManualResult.submitted code fmt ∧
        (submitManualCode s code fmt now).1.scanHistory =
          (⟨code, fmt, toISOString now, none⟩ : ScanRecord) ::
            s.scanHistory.take (min s.scanHistory.length 49) ∧
        (toISOString now).length = 24 := by
  intro s code fmt now htrim hne
  unfold submitManualCode
  dsimp only
  rw [htrim, if_neg hne]
  refine ⟨rfl, ?_, toISOString_length now⟩
  dsimp only [processScan]
  rw [addToHistory_eq]

/-- C9 instantiated: manually submitting "012345678905" as UPC-A at a
concrete time yields exactly the expected head record. -/
theorem C9_manual_submit_creates_head_record_witness :
    (submitManualCode initialState "012345678905" "UPC-A" 1700000000000).2 =
        ManualResult.submitted "012345678905" "UPC-A" ∧
      (submitManualCode initialState "012345678905" "UPC-A" 1700000000000).1.scanHistory =
        [⟨"012345678905", "UPC-A", toISOString 1700000000000, none⟩] ∧
      (toISOString 1700000000000).length = 24 := by
  have h := C9_manual_submit_creates_head_record initialState "012345678905"
    "UPC-A" 1700000000000 (by decide) (by decide)
  exact ⟨h.1, by rw [h.2.1]; rfl, h.2.2⟩

/-- C10: `updateSettings` hard-codes `minDetections = 2` and
`detectionTimeout = 2000` no matter what the checkboxes (or missing
DOM elements) say — these two fields can never be changed through the
settings-update operation. -/
theorem C10_hardcoded_thresholds :
    ∀ (ui : SettingsUI),
      (updateSettings ui).minDetections = 2 ∧
      (updateSettings ui).detectionTimeout = 2000 :=
  fun _ => ⟨rfl, rfl⟩

end BarcodeScanner
